import Mathlib

/-!
Verification of the A2UI streaming surface renderer.

This file is a shallow embedding of the message-driven state builder of the
repository: the JSONL envelope decoder and fold of
src/frontend/src/components/A2UIRenderer/index.tsx, the alternative fold and
data-path resolution of src/frontend/src/components/OfficialA2UIRenderer.tsx,
and the recursive render dispatcher with its data-path resolver from the
ComponentRegistry module.

JavaScript dynamic values are embedded as the inductive type JsVal.  The code
runs as an ES module, hence in strict mode: assigning a property to a
primitive value throws a TypeError, which the embedding models with Except.
JavaScript property reads on null or undefined also throw; call sites in the
source that can reach such a read model the throw explicitly, while reads
that the source guards (by truthiness tests or optional chaining) use the
total getProp.
-/

set_option autoImplicit false

namespace A2UI

/-- Embedding of a JavaScript runtime value as produced by JSON.parse and the
builder.  Arrays carry their elements plus any expando (non-index) properties
that the builder may have written onto them; numbers are embedded as integers
because every numeric value the protocol carries is integral. -/
inductive JsVal where
  | undefined
  | null
  | str (s : String)
  | num (n : Int)
  | bool (b : Bool)
  | arr (elems : List JsVal) (props : List (String × JsVal))
  | obj (fields : List (String × JsVal))

/-- Lookup in an assoc list, first match wins; embeds property lookup on a
plain JavaScript object and Map.get (all keys in the model are strings). -/
def jsGet {α : Type} : List (String × α) → String → Option α
  | [], _ => none
  | (k', v') :: rest, k => if k' = k then some v' else jsGet rest k

/-- Write to an assoc list with JavaScript object / Map semantics: an
existing key keeps its position and gets the new value, a new key is
appended. -/
def jsSet {α : Type} : List (String × α) → String → α → List (String × α)
  | [], k, v => [(k, v)]
  | (k', v') :: rest, k, v =>
      if k' = k then (k', v) :: rest else (k', v') :: jsSet rest k v

/-- JavaScript truthiness. -/
def truthy : JsVal → Bool
  | .undefined => false
  | .null => false
  | .str s => !s.isEmpty
  | .num n => n != 0
  | .bool b => b
  | .arr _ _ => true
  | .obj _ => true

/-- The test typeof v === "object"; true for objects, arrays and null. -/
def isObjectType : JsVal → Bool
  | .null => true
  | .arr _ _ => true
  | .obj _ => true
  | _ => false

/-- A value that supports property writes without throwing (object or array). -/
def isContainer : JsVal → Bool
  | .arr _ _ => true
  | .obj _ => true
  | _ => false

/-- The test v === null or v === undefined (nullish). -/
def isNullish : JsVal → Bool
  | .null => true
  | .undefined => true
  | _ => false

/-- Decimal digit value of a character. -/
def charDigit? (c : Char) : Option Nat :=
  if c.isDigit then some (c.toNat - 48) else none

/-- Parse a string that is the canonical decimal representation of a natural
number: all digits, no leading zero except for zero itself. -/
def decimalIndex? (k : String) : Option Nat :=
  match k.toList with
  | [] => none
  | c :: cs =>
      if c = '0' && !cs.isEmpty then none
      else
        (c :: cs).foldl
          (fun acc ch =>
            match acc, charDigit? ch with
            | some n, some d => some (n * 10 + d)
            | _, _ => none) (some 0)

/-- Canonical array index check: the key k denotes index i of an array of
length n exactly when k is the canonical decimal representation of i and
i < n. -/
def arrIndex? (k : String) (n : Nat) : Option Nat :=
  match decimalIndex? k with
  | some i => if i < n then some i else none
  | none => none

/-- Property read on a JavaScript value.  Missing keys give undefined;
reads on primitives go through boxing (character and length access on
strings, undefined otherwise).  Reads on null and undefined throw in
JavaScript, so call sites that can reach them use getPropStrict instead;
here they return undefined and are never consulted on guarded paths. -/
def getProp : JsVal → String → JsVal
  | .obj fields, k => (jsGet fields k).getD .undefined
  | .arr elems props, k =>
      match arrIndex? k elems.length with
      | some i => elems.getD i .undefined
      | none =>
          if k = "length" then .num elems.length
          else (jsGet props k).getD .undefined
  | .str s, k =>
      if k = "length" then .num s.length
      else
        match arrIndex? k s.length with
        | some i => .str (String.mk [s.toList.getD i ' '])
        | none => .undefined
  | _, _ => .undefined

/-- Property read at a site where the source accesses the property without a
guard: on null or undefined this throws a TypeError. -/
def getPropStrict (v : JsVal) (k : String) : Except String JsVal :=
  if isNullish v then .error "TypeError: cannot read properties of null or undefined"
  else .ok (getProp v k)

/-- The JavaScript in operator, used only under a typeof object guard. -/
def hasProp : JsVal → String → Bool
  | .obj fields, k => (jsGet fields k).isSome
  | .arr elems props, k =>
      (arrIndex? k elems.length).isSome || k = "length" || (jsGet props k).isSome
  | _, _ => false

/-- Property assignment in strict mode: objects and arrays accept the write,
every other value throws a TypeError. -/
def setProp (v : JsVal) (k : String) (x : JsVal) : Except String JsVal :=
  match v with
  | .obj fields => .ok (.obj (jsSet fields k x))
  | .arr elems props =>
      match arrIndex? k elems.length with
      | some i => .ok (.arr (elems.set i x) props)
      | none => .ok (.arr elems (jsSet props k x))
  | _ => .error "TypeError: cannot create property on a primitive value"

/-- Write-back for an aliased in-place mutation: in JavaScript a mutation of
a child object is visible through the parent without any assignment, while a
boxed primitive child is an unaliased copy whose mutation is lost.  The
functional embedding therefore updates containers and leaves primitives
unchanged. -/
def setPropPure (v : JsVal) (k : String) (x : JsVal) : JsVal :=
  match setProp v k x with
  | .ok v' => v'
  | .error _ => v

/-- JavaScript String.prototype.split with a one-character separator,
defined on the character list. -/
def splitChars (sep : Char) : List Char → List (List Char)
  | [] => [[]]
  | c :: rest =>
      let r := splitChars sep rest
      if c = sep then [] :: r
      else
        match r with
        | g :: gs => (c :: g) :: gs
        | [] => [[c]]

/-- JavaScript path.split with separator "/". -/
def jsSplit (sep : Char) (s : String) : List String :=
  (splitChars sep s.toList).map String.mk

/-- Map with exceptions: the embedding of Array.prototype.map over a callback
that can throw, and of mapping JSON.parse over the record list. -/
def exMap {α β : Type} (f : α → Except String β) : List α → Except String (List β)
  | [] => .ok []
  | a :: l =>
      match f a with
      | .error e => .error e
      | .ok b =>
          match exMap f l with
          | .error e => .error e
          | .ok bs => .ok (b :: bs)

/-- Left fold with exceptions: the embedding of a sequential statement loop
whose body can throw. -/
def exFoldl {σ α : Type} (f : σ → α → Except String σ) : σ → List α → Except String σ
  | s, [] => .ok s
  | s, a :: l =>
      match f s a with
      | .error e => .error e
      | .ok s' => exFoldl f s' l

/-- The JavaScript String() conversion.  Arrays stringify by joining their
elements with commas, null and undefined elements joining as the empty
string; plain objects stringify to the usual object tag.  The fuel argument
bounds the recursion depth exactly as the JavaScript call stack does. -/
def jsToString : Nat → JsVal → Except String String
  | 0, _ => .error "RangeError: maximum call stack size exceeded"
  | fuel + 1, v =>
      match v with
      | .undefined => .ok "undefined"
      | .null => .ok "null"
      | .str s => .ok s
      | .num n => .ok (toString n)
      | .bool b => .ok (if b then "true" else "false")
      | .obj _ => .ok "[object Object]"
      | .arr elems _ => do
          let parts ← exMap
            (fun e =>
              match e with
              | .null => .ok ""
              | .undefined => .ok ""
              | e => jsToString fuel e) elems
          .ok (String.intercalate "," parts)

/-- The deep clone JSON.parse(JSON.stringify(v)): object fields holding
undefined are dropped, undefined array elements become null, expando
properties on arrays are lost, and stringifying a bare undefined yields a
string JSON.parse rejects. -/
def jsonClone : Nat → JsVal → Except String JsVal
  | 0, _ => .error "RangeError: maximum call stack size exceeded"
  | fuel + 1, v =>
      match v with
      | .undefined => .error "SyntaxError: invalid JSON"
      | .null => .ok .null
      | .str s => .ok (.str s)
      | .num n => .ok (.num n)
      | .bool b => .ok (.bool b)
      | .arr elems _ => do
          let elems' ← exMap
            (fun e =>
              match e with
              | .undefined => .ok .null
              | e => jsonClone fuel e) elems
          .ok (.arr elems' [])
      | .obj fields => do
          let fields' ← exFoldl
            (fun acc kv =>
              match kv.2 with
              | .undefined => .ok acc
              | x => do
                  let x' ← jsonClone fuel x
                  .ok (acc ++ [(kv.1, x')])) [] fields
          .ok (.obj fields')

/-- Object spread with one overriding key, as in the source expressions that
copy componentData while replacing its text or title field.  Spreading an
object copies its fields in order; spreading an array or string contributes
its index properties; spreading any other primitive contributes nothing. -/
def spreadSet (v : JsVal) (k : String) (x : JsVal) : JsVal :=
  match v with
  | .obj fields => .obj (jsSet fields k x)
  | .arr elems props =>
      .obj (jsSet ((elems.enum.map (fun p => (toString p.1, p.2))) ++ props) k x)
  | .str s =>
      .obj (jsSet (s.toList.enum.map (fun p => (toString p.1, .str (String.mk [p.2])))) k x)
  | _ => .obj [(k, x)]

/-! ## Envelope model

Mirrors the A2UI protocol types of
src/frontend/src/components/A2UIRenderer/types.ts.  A component carries its
single-key component payload as a kind tag together with the payload value;
the source only ever reads the first entry of that object. -/

/-- One component instance of a surfaceUpdate envelope. -/
structure A2UIComponent where
  id : String
  kind : String
  data : JsVal

/-- One entry of a dataModelUpdate contents list; exactly the optional value
variants of the wire format. -/
structure DataModelContent where
  key : String
  valueString : Option String := none
  valueNumber : Option Int := none
  valueBoolean : Option Bool := none
  valueArray : Option (List JsVal) := none

/-- A well-formed protocol envelope: exactly one variant populated. -/
inductive A2UIMessage where
  | surfaceUpdate (surfaceId : String) (components : List A2UIComponent)
  | dataModelUpdate (surfaceId : String) (path : Option String)
      (contents : List DataModelContent)
  | beginRendering (surfaceId : String)
  | deleteSurface (surfaceId : String)

/-- One raw line of the JSONL stream as the decoder sees it: blank (dropped
by the trim filter), malformed (JSON.parse throws), or a record parsing to a
message.  JSON.parse itself is a host builtin, embedded by this outcome. -/
inductive RawLine where
  | blank
  | malformed (raw : String)
  | message (m : A2UIMessage)

/-- Whether the trim filter drops the line. -/
def RawLine.isBlank : RawLine → Bool
  | .blank => true
  | _ => false

/-- JSON.parse on one non-blank record. -/
def parseLine : RawLine → Except String A2UIMessage
  | .blank => .error "unreachable: blank lines are filtered before parsing"
  | .malformed raw => .error raw
  | .message m => .ok m

/-! ## Surface state builder of A2UIRenderer/index.tsx -/

/-- Surface state of the A2UIRenderer effect: surface id, the component Map
keyed by component id in insertion order, and the dataModel record whose only
populated key is the root slash. -/
structure A2UISurface where
  id : String
  components : List (String × A2UIComponent)
  dataModel : List (String × JsVal)

/-- The value expression of the contents loop: the nullish-coalescing chain
valueString, valueNumber, valueBoolean, valueArray. -/
def contentValue (item : DataModelContent) : JsVal :=
  match item.valueString with
  | some s => .str s
  | none =>
      match item.valueNumber with
      | some n => .num n
      | none =>
          match item.valueBoolean with
          | some b => .bool b
          | none =>
              match item.valueArray with
              | some a => .arr a []
              | none => .undefined

/-- One iteration of the contents loop of index.tsx lines 66 to 81: an entry
with a falsy key is skipped; when valueArray is populated (any array is
truthy, including the empty one) the array itself is stored, otherwise the
coalesced value. -/
def writeOneContent (acc : JsVal) (item : DataModelContent) : Except String JsVal :=
  if item.key.isEmpty then .ok acc
  else
    match item.valueArray with
    | some a => setProp acc item.key (.arr a [])
    | none => setProp acc item.key (contentValue item)

/-- The whole contents loop of index.tsx lines 66 to 81. -/
def a2uiWriteContents (items : List DataModelContent) (v : JsVal) : Except String JsVal :=
  exFoldl writeOneContent v items

/-- The path walk shared by both renderers: for each segment, a falsy child
is replaced by a fresh empty object (a write that throws on a primitive
parent), then the walk descends; at the end of the path the given write runs
on the target.  Mutation through the alias is written back with setPropPure,
which is the identity on unaliased boxed primitives. -/
def dmuWalk (write : JsVal → Except String JsVal) : JsVal → List String → Except String JsVal
  | v, [] => write v
  | v, part :: rest =>
      let child := getProp v part
      if truthy child then
        match dmuWalk write child rest with
        | .error e => .error e
        | .ok child' => .ok (setPropPure v part child')
      else
        match setProp v part (.obj []) with
        | .error e => .error e
        | .ok v' =>
            match dmuWalk write (.obj []) rest with
            | .error e => .error e
            | .ok child' => setProp v' part child'

/-- Path normalization of index.tsx: a missing or empty path means the root
slash; a non-root path is split on the separator and empty segments are
dropped. -/
def a2uiPathParts (path : Option String) : List String :=
  let p := match path with
    | none => "/"
    | some p => if p.isEmpty then "/" else p
  if p = "/" then [] else (jsSplit '/' p).filter (fun s => !s.isEmpty)

/-- One step of the message loop of index.tsx lines 33 to 89 over the pair
of the surface under construction and the isReady flag: surfaceUpdate sets
the id (empty falls back to main) and inserts or wholesale-replaces each
listed component by id; dataModelUpdate ensures the root container and walks
and writes; beginRendering sets the flag; deleteSurface only logs. -/
def a2uiApplyMessage (st : A2UISurface × Bool) (msg : A2UIMessage) :
    Except String (A2UISurface × Bool) :=
  match msg with
  | .surfaceUpdate surfaceId comps =>
      .ok ({ st.1 with
              id := if surfaceId.isEmpty then "main" else surfaceId,
              components := comps.foldl (fun m c => jsSet m c.id c) st.1.components },
           st.2)
  | .dataModelUpdate _ path contents =>
      let dm :=
        if truthy ((jsGet st.1.dataModel "/").getD .undefined) then st.1.dataModel
        else jsSet st.1.dataModel "/" (.obj [])
      let root := (jsGet dm "/").getD .undefined
      match dmuWalk (a2uiWriteContents contents) root (a2uiPathParts path) with
      | .error e => .error e
      | .ok root' => .ok ({ st.1 with dataModel := jsSet dm "/" root' }, st.2)
  | .beginRendering _ => .ok (st.1, true)
  | .deleteSurface _ => .ok st

/-- The fold of the whole message list from the fresh surface the effect
allocates. -/
def a2uiProcessMessages (msgs : List A2UIMessage) : Except String (A2UISurface × Bool) :=
  exFoldl a2uiApplyMessage (⟨"main", [], []⟩, false) msgs

/-- The whole effect body of index.tsx lines 17 to 98: filter out blank
lines, parse every record eagerly (the map over JSON.parse), then fold the
parsed messages.  A thrown parse error aborts before any message is applied
and the surface under construction is discarded. -/
def a2uiRunEffect (lines : List RawLine) : Except String (A2UISurface × Bool) :=
  match exMap parseLine (lines.filter (fun l => !l.isBlank)) with
  | .error e => .error e
  | .ok msgs => a2uiProcessMessages msgs

/-- Whether a raw line is one on which JSON.parse throws. -/
def RawLine.isMalformed : RawLine → Bool
  | .malformed _ => true
  | _ => false

/-- Sufficient condition for the path walk not to throw: every truthy value
met along the path is again followed safely, and wherever a write happens
(a fresh container is created, or the contents are stored) the parent is a
container. -/
def dmuSafe : JsVal → List String → Bool
  | v, [] => isContainer v
  | v, part :: rest =>
      let child := getProp v part
      if truthy child then dmuSafe child rest else isContainer v

/-- Safety condition for one envelope against a surface state: only a
dataModelUpdate can throw, and only through its path walk. -/
def msgTraversalOk (s : A2UISurface) : A2UIMessage → Bool
  | .dataModelUpdate _ path _ =>
      let dm :=
        if truthy ((jsGet s.dataModel "/").getD .undefined) then s.dataModel
        else jsSet s.dataModel "/" (.obj [])
      dmuSafe ((jsGet dm "/").getD .undefined) (a2uiPathParts path)
  | _ => true

/-! ## Surface state builder of OfficialA2UIRenderer.tsx -/

/-- State of the official renderer effect: the component list (replaced
wholesale by each surfaceUpdate), the data model record (no root-slash
wrapper), and the isReady flag. -/
structure OfficialState where
  components : List A2UIComponent
  dataModel : List (String × JsVal)
  ready : Bool

/-- The contents loop of OfficialA2UIRenderer lines 77 to 87: entries with a
falsy key are skipped and the coalesced value is stored directly, with no
array special case. -/
def officialWriteContents (items : List DataModelContent) (v : JsVal) : Except String JsVal :=
  exFoldl
    (fun acc item =>
      if item.key.isEmpty then .ok acc
      else setProp acc item.key (contentValue item)) v items

/-- Path normalization of the official renderer: missing or empty path means
the root slash, then split and drop empty segments (no special case for the
root, whose split produces no segments anyway). -/
def officialPathParts (path : Option String) : List String :=
  let p := match path with
    | none => "/"
    | some p => if p.isEmpty then "/" else p
  (jsSplit '/' p).filter (fun s => !s.isEmpty)

/-- One step of the official message loop, lines 58 to 92: surfaceUpdate
stores the listed components, replacing the previous list wholesale;
dataModelUpdate walks from the record itself; beginRendering sets the flag;
deleteSurface has no branch and falls through the if chain. -/
def officialApplyMessage (st : OfficialState) (msg : A2UIMessage) :
    Except String OfficialState :=
  match msg with
  | .surfaceUpdate _ comps => .ok { st with components := comps }
  | .dataModelUpdate _ path contents =>
      match dmuWalk (officialWriteContents contents) (.obj st.dataModel)
        (officialPathParts path) with
      | .error e => .error e
      | .ok (.obj fields) => .ok { st with dataModel := fields }
      | .ok _ => .ok st
  | .beginRendering _ => .ok { st with ready := true }
  | .deleteSurface _ => .ok st

/-- The fold of the official message loop from its empty initial state. -/
def officialProcessMessages (msgs : List A2UIMessage) : Except String OfficialState :=
  exFoldl officialApplyMessage ⟨[], [], false⟩ msgs

/-- The resolveDataPath helper of OfficialA2UIRenderer lines 95 to 106: split
the path, drop empty segments, walk from the data model record; a step on a
truthy object or array reads the property, anything else returns null. -/
def officialResolveParts : JsVal → List String → JsVal
  | v, [] => v
  | v, part :: rest =>
      if truthy v && isObjectType v then officialResolveParts (getProp v part) rest
      else .null

/-- The official resolveDataPath entry point. -/
def officialResolveDataPath (path : String) (dm : List (String × JsVal)) : JsVal :=
  officialResolveParts (.obj dm) ((jsSplit '/' path).filter (fun s => !s.isEmpty))

/-- The recursive resolveInObject of lines 113 to 131: primitives and null
pass through; an object carrying a truthy string dataPath whose resolution is
neither null nor undefined is replaced by a literalString object holding its
String() conversion; otherwise the structure is copied with every property
resolved recursively.  Fuel bounds the recursion as the call stack does. -/
def resolveInObject (dm : List (String × JsVal)) : Nat → JsVal → Except String JsVal
  | 0, _ => .error "RangeError: maximum call stack size exceeded"
  | fuel + 1, v =>
      if !truthy v || !isObjectType v then .ok v
      else
        let descend : Except String JsVal :=
          match v with
          | .arr elems props => do
              let elems' ← exMap (fun e => resolveInObject dm fuel e) elems
              let props' ← exMap
                (fun kv => do
                  let x ← resolveInObject dm fuel kv.2
                  .ok (kv.1, x)) props
              .ok (.arr elems' props')
          | .obj fields => do
              let fields' ← exMap
                (fun kv => do
                  let x ← resolveInObject dm fuel kv.2
                  .ok (kv.1, x)) fields
              .ok (.obj fields')
          | v => .ok v
        match getProp v "dataPath" with
        | .str p =>
            if p.isEmpty then descend
            else
              let value := officialResolveDataPath p dm
              if isNullish value then descend
              else do
                let s ← jsToString fuel value
                .ok (.obj [("literalString", .str s)])
        | _ => descend

/-- The per-component resolution of lines 108 to 141: deep-clone the single
payload through the JSON round trip, resolve data paths inside it, rebuild
the component. -/
def officialResolveComponent (dm : List (String × JsVal)) (fuel : Nat)
    (comp : A2UIComponent) : Except String A2UIComponent := do
  let cloned ← jsonClone fuel comp.data
  let resolved ← resolveInObject dm fuel cloned
  .ok ⟨comp.id, comp.kind, resolved⟩

/-- The map over all components producing resolvedComponents. -/
def officialResolveAll (dm : List (String × JsVal)) (fuel : Nat)
    (comps : List A2UIComponent) : Except String (List A2UIComponent) :=
  exMap (officialResolveComponent dm fuel) comps

/-- The union of all ids appearing in any children list, as collected by the
forEach over components in both renderers; only string elements can ever
match a string Map key. -/
def childIdsOf (comps : List A2UIComponent) : List String :=
  comps.foldl
    (fun acc c =>
      match getProp c.data "children" with
      | .arr elems _ =>
          acc ++ elems.filterMap (fun v => match v with | .str s => some s | _ => none)
      | _ => acc) []

/-- The official root set, lines 143 to 152: every resolved component whose
id no other component lists as a child, in list order. -/
def officialRoots (comps : List A2UIComponent) : List String :=
  (comps.filter (fun c => !(childIdsOf comps).contains c.id)).map (fun c => c.id)

/-- Line 153: the single root handed to the viewer is the first derived
root, falling back to the first component (a falsy id becomes null). -/
def officialRootId (comps : List A2UIComponent) : Option String :=
  match officialRoots comps with
  | r :: _ => some r
  | [] =>
      match comps with
      | c :: _ => if c.id.isEmpty then none else some c.id
      | [] => none

/-! ## Data path resolver of the ComponentRegistry module -/

/-- The walk of the registry resolveDataPath, lines 36 to 47: a step on a
truthy object or array first checks the legacy singleton convention: a
one-element array whose element has typeof object descends into the element
with the current segment instead of indexing the array (a null element makes
that read throw); any non-object step returns null. -/
def a2uiResolveParts : JsVal → List String → Except String JsVal
  | v, [] => .ok v
  | v, part :: rest =>
      if truthy v && isObjectType v then
        match v with
        | .arr [e] props =>
            if isObjectType e then
              match e with
              | .null => .error "TypeError: cannot read properties of null"
              | e => a2uiResolveParts (getProp e part) rest
            else a2uiResolveParts (getProp (.arr [e] props) part) rest
        | v => a2uiResolveParts (getProp v part) rest
      else .ok .null

/-- The registry resolveDataPath, lines 32 to 49: a falsy path returns null
immediately; otherwise split on the separator, drop empty segments and walk
from the root-slash entry of the surface data model. -/
def a2uiResolveDataPath (dm : List (String × JsVal)) (path : String) : Except String JsVal :=
  if path.isEmpty then .ok .null
  else
    a2uiResolveParts ((jsGet dm "/").getD .undefined)
      ((jsSplit '/' path).filter (fun s => !s.isEmpty))

/-! ## Render dispatcher of the ComponentRegistry module -/

/-- The visual tree produced by the dispatcher, one constructor per switch
case: the null render of a missing component, the ten component kinds, the
visible unsupported placeholder of the default case, and the surface
container that maps over the root components. -/
inductive RNode where
  | nullNode
  | textN (data : JsVal)
  | buttonN (data : JsVal)
  | cardN (data : JsVal) (children : List RNode)
  | rowN (children : List RNode)
  | columnN (children : List RNode)
  | tableN (data : JsVal) (rows : List JsVal)
  | chartN (data : JsVal) (rows : List JsVal)
  | formN (data : JsVal) (children : List RNode)
  | textFieldN (data : JsVal)
  | dateTimeN (label : JsVal) (timeMode : Bool)
  | unsupportedN (kind : String)
  | surfaceN (children : List RNode)

/-- The children read shared by the container cases: an unguarded read of
the children property followed by an optional-chained map, so nullish
children render nothing and any other non-array throws. -/
def childElems (data : JsVal) : Except String (List JsVal) := do
  let c ← getPropStrict data "children"
  match c with
  | .null => .ok []
  | .undefined => .ok []
  | .arr elems _ => .ok elems
  | _ => .error "TypeError: map is not a function"

/-- The unwrap of a resolved value carried in a data property, shared by the
Text, Table and Chart cases. -/
def unwrapData (v : JsVal) : JsVal :=
  if truthy v && isObjectType v && hasProp v "data" then getProp v "data" else v

/-- Resolution of a binding value at a call site that passes it to
resolveDataPath: only reached when the value is truthy, and a truthy
non-string makes the split inside the resolver throw. -/
def resolveBinding (dm : List (String × JsVal)) (v : JsVal) : Except String JsVal :=
  match v with
  | .str p => a2uiResolveDataPath dm p
  | _ => .error "TypeError: split is not a function"

/-- The ComponentRegistry dispatcher: look the id up in the component Map
(missing renders null), then switch on the kind tag exactly as the source
does.  The fuel argument bounds the recursion over children as the
JavaScript call stack does. -/
def renderComp (s : A2UISurface) : Nat → String → Except String RNode
  | 0, _ => .error "RangeError: maximum call stack size exceeded"
  | fuel + 1, cid =>
      match jsGet s.components cid with
      | none => .ok .nullNode
      | some comp =>
          let data := comp.data
          let renderKids : List JsVal → Except String (List RNode) :=
            exMap (fun v =>
              match v with
              | .str childId => renderComp s fuel childId
              | _ => .ok .nullNode)
          match comp.kind with
          | "Text" => do
              let dp ← getPropStrict data "dataPath"
              let topLevelPath := if truthy dp then dp else getProp data "dataBinding"
              let textObj := getProp data "text"
              let textPath :=
                if truthy (getProp textObj "dataPath") then getProp textObj "dataPath"
                else getProp textObj "dataBinding"
              let pathToResolve := if truthy topLevelPath then topLevelPath else textPath
              if truthy pathToResolve then do
                let resolved ← resolveBinding s.dataModel pathToResolve
                let resolved := unwrapData resolved
                let shown ← jsToString fuel
                  (if isNullish resolved then .str "" else resolved)
                .ok (.textN (spreadSet data "text" (.obj [("literalString", .str shown)])))
              else .ok (.textN data)
          | "Button" => .ok (.buttonN data)
          | "Card" => do
              let title ← getPropStrict data "title"
              let cardData ←
                if truthy (getProp title "dataPath") then do
                  let resolvedTitle ← resolveBinding s.dataModel (getProp title "dataPath")
                  let shown ← jsToString fuel
                    (if truthy resolvedTitle then resolvedTitle else .str "")
                  pure (spreadSet data "title" (.obj [("literalString", .str shown)]))
                else pure data
              let kids ← childElems data
              let rendered ← renderKids kids
              .ok (.cardN cardData rendered)
          | "Row" => do
              let kids ← childElems data
              let rendered ← renderKids kids
              .ok (.rowN rendered)
          | "Column" => do
              let kids ← childElems data
              let rendered ← renderKids kids
              .ok (.columnN rendered)
          | "Table" => do
              let tablePath ← getPropStrict data "dataPath"
              let resolved ←
                if truthy tablePath then resolveBinding s.dataModel tablePath
                else pure (.arr [] [])
              let resolved := unwrapData resolved
              let rows := match resolved with | .arr elems _ => elems | _ => []
              .ok (.tableN data rows)
          | "Chart" => do
              let config ← getPropStrict data "config"
              let chartPath ← getPropStrict config "dataPath"
              let resolved ←
                if truthy chartPath then resolveBinding s.dataModel chartPath
                else pure (.arr [] [])
              let resolved := unwrapData resolved
              let rows := match resolved with | .arr elems _ => elems | _ => []
              .ok (.chartN data rows)
          | "Form" => do
              let kids ← childElems data
              let rendered ← renderKids kids
              .ok (.formN data rendered)
          | "TextField" => .ok (.textFieldN data)
          | "DateTimeInput" => do
              let label ← getPropStrict data "label"
              let dateLabel :=
                match label with
                | .str s => JsVal.str s
                | other => getProp other "literalString"
              let timeMode :=
                match getProp data "mode" with
                | .str m => m = "time"
                | _ => false
              .ok (.dateTimeN dateLabel timeMode)
          | kind => .ok (.unsupportedN kind)

/-- The root computation of index.tsx lines 122 to 133: every Map key that
no component lists among its children, in Map insertion order. -/
def a2uiRootComponents (s : A2UISurface) : List String :=
  let allChildIds := childIdsOf (s.components.map (fun p => p.2))
  (s.components.map (fun p => p.1)).filter (fun id => !allChildIds.contains id)

/-- The surface render of lines 135 to 145: the surface container holding
one dispatched render per root component.  An exception thrown while
rendering any root aborts the whole render. -/
def a2uiRenderSurface (s : A2UISurface) (fuel : Nat) : Except String RNode :=
  match exMap (renderComp s fuel) (a2uiRootComponents s) with
  | .error e => .error e
  | .ok kids => .ok (.surfaceN kids)

/-! ## Concrete fixtures used by the claim instances -/

/-- A row component whose only child is B. -/
def topoA : A2UIComponent := ⟨"A", "Row", .obj [("children", .arr [.str "B"] [])]⟩

/-- A childless text component with id B. -/
def topoB : A2UIComponent := ⟨"B", "Text", .obj [("text", .obj [("literalString", .str "Hi")])]⟩

/-- A childless text component with id C. -/
def topoC : A2UIComponent := ⟨"C", "Text", .obj [("text", .obj [("literalString", .str "Yo")])]⟩

/-- The registry of the topology example: components A with children B, and
childless B and C. -/
def topoSurf : A2UISurface :=
  ⟨"s1", [("A", topoA), ("B", topoB), ("C", topoC)], []⟩

/-- A row listing B as child while B lists A: the two-cycle of the topology
example. -/
def cycA : A2UIComponent := ⟨"A", "Row", .obj [("children", .arr [.str "B"] [])]⟩

/-- The other half of the two-cycle. -/
def cycB : A2UIComponent := ⟨"B", "Row", .obj [("children", .arr [.str "A"] [])]⟩

/-- The cyclic registry: every component is listed as a child, so the
derived root set is empty. -/
def cycSurf : A2UISurface := ⟨"s1", [("A", cycA), ("B", cycB)], []⟩

/-- A row whose children list names B (absent from the registry) and C. -/
def missA : A2UIComponent := ⟨"A", "Row", .obj [("children", .arr [.str "B", .str "C"] [])]⟩

/-- The present sibling of the dangling reference. -/
def missC : A2UIComponent := ⟨"C", "Text", .obj [("text", .obj [("literalString", .str "ok")])]⟩

/-- A surface whose component A references the missing id B. -/
def missSurf : A2UISurface := ⟨"s1", [("A", missA), ("C", missC)], []⟩

/-- The data model of the path resolution example: root holding one kpis
container with a revenue leaf. -/
def kpisDm : List (String × JsVal) :=
  [("/", .obj [("kpis", .obj [("revenue", .num 1000)])])]

/-- First write for the duplicated component id X. -/
def dupX1 : A2UIComponent := ⟨"X", "Text", .obj [("text", .obj [("literalString", .str "first")])]⟩

/-- Second write for the duplicated component id X. -/
def dupX2 : A2UIComponent := ⟨"X", "Text", .obj [("text", .obj [("literalString", .str "second")])]⟩

/-- A component with a distinct id introduced by the earlier surfaceUpdate. -/
def dupA : A2UIComponent := ⟨"A", "Text", .obj [("text", .obj [("literalString", .str "keep")])]⟩

/-- Component present before the deleteSurface envelope. -/
def delA : A2UIComponent := ⟨"A", "Text", .obj [("text", .obj [("literalString", .str "old")])]⟩

/-- Component introduced after the deleteSurface envelope. -/
def delB : A2UIComponent := ⟨"B", "Text", .obj [("text", .obj [("literalString", .str "new")])]⟩

/-! ## Specification-side views of the fold -/

/-- Prefer the newer write when one exists. -/
def lastWins {α : Type} (newer older : Option α) : Option α :=
  match newer with
  | some a => some a
  | none => older

/-- The last component carrying the given id within one surfaceUpdate batch
(entries later in the list are written later, hence win). -/
def lastById (batch : List A2UIComponent) (x : String) : Option A2UIComponent :=
  match batch with
  | [] => none
  | c :: rest => lastWins (lastById rest x) (if c.id = x then some c else none)

/-- The last component carrying the given id written by any surfaceUpdate of
a message list (later messages win). -/
def lastSuWrite (msgs : List A2UIMessage) (x : String) : Option A2UIComponent :=
  match msgs with
  | [] => none
  | m :: rest =>
      lastWins (lastSuWrite rest x)
        (match m with
         | .surfaceUpdate _ comps => lastById comps x
         | _ => none)

/-! ## Helper lemmas -/

theorem lastWins_none_right {α : Type} (a : Option α) : lastWins a none = a := by
  cases a <;> rfl

theorem lastWins_assoc {α : Type} (a b c : Option α) :
    lastWins (lastWins a b) c = lastWins a (lastWins b c) := by
  cases a <;> cases b <;> rfl

theorem jsGet_jsSet {α : Type} (m : List (String × α)) (k x : String) (v : α) :
    jsGet (jsSet m k v) x = if k = x then some v else jsGet m x := by
  induction m with
  | nil => simp [jsSet, jsGet]
  | cons p rest ih =>
      obtain ⟨k', v'⟩ := p
      simp only [jsSet, jsGet]
      split_ifs with h1 h2 h3 h4 <;> simp_all [jsGet]

theorem jsGet_batchInsert (batch : List A2UIComponent)
    (m0 : List (String × A2UIComponent)) (x : String) :
    jsGet (batch.foldl (fun m c => jsSet m c.id c) m0) x =
      lastWins (lastById batch x) (jsGet m0 x) := by
  induction batch generalizing m0 with
  | nil => simp [lastById, lastWins]
  | cons c rest ih =>
      simp only [List.foldl_cons, lastById]
      rw [ih, jsGet_jsSet]
      cases lastById rest x <;> by_cases h : c.id = x <;>
        simp [lastWins, h]

theorem exFoldl_cons_ok {σ α : Type} (f : σ → α → Except String σ) (s : σ) (a : α)
    (l : List α) (out : σ) (h : exFoldl f s (a :: l) = .ok out) :
    ∃ s', f s a = .ok s' ∧ exFoldl f s' l = .ok out := by
  unfold exFoldl at h
  cases hfa : f s a with
  | error e => rw [hfa] at h; exact Except.noConfusion h
  | ok s' => rw [hfa] at h; exact ⟨s', rfl, h⟩

theorem a2uiApplyMessage_ok_components (st : A2UISurface × Bool) (m : A2UIMessage)
    (out : A2UISurface × Bool) (h : a2uiApplyMessage st m = .ok out) (x : String) :
    jsGet out.1.components x =
      lastWins
        (match m with
         | .surfaceUpdate _ comps => lastById comps x
         | _ => none)
        (jsGet st.1.components x) := by
  cases m with
  | surfaceUpdate sid comps =>
      simp only [a2uiApplyMessage] at h
      cases h
      exact jsGet_batchInsert comps st.1.components x
  | dataModelUpdate sid path contents =>
      simp only [a2uiApplyMessage] at h
      split at h
      · exact Except.noConfusion h
      · cases h; simp [lastWins]
  | beginRendering sid =>
      simp only [a2uiApplyMessage] at h
      cases h; simp [lastWins]
  | deleteSurface sid =>
      simp only [a2uiApplyMessage] at h
      cases h; simp [lastWins]

/-! ## Claim C3 -/

/-- Claim C3, counterexample: for the cyclic registry A listing B and B
listing A the derived root set is empty, yet the render pass raises no
TopologyError (no such error exists anywhere in the code): it returns
normally with an empty surface container. -/
theorem cyclic_registry_renders_empty_not_topology_error :
    a2uiRootComponents cycSurf = [] ∧
    a2uiRenderSurface cycSurf 10 = .ok (.surfaceN []) :=
  ⟨rfl, rfl⟩

/-- Claim C3, amended: whenever the derived root set of a surface is empty,
the A2UIRenderer render pass renders an empty surface container without
recursing into any component and without raising anything. -/
theorem empty_root_set_renders_empty_surface (s : A2UISurface) (fuel : Nat)
    (h : a2uiRootComponents s = []) :
    a2uiRenderSurface s fuel = .ok (.surfaceN []) := by
  unfold a2uiRenderSurface
  rw [h]
  rfl

/-- Claim C3, witness for the amended theorem at the concrete cyclic
registry. -/
theorem empty_root_set_renders_empty_surface_witness :
    a2uiRenderSurface cycSurf 7 = .ok (.surfaceN []) :=
  empty_root_set_renders_empty_surface cycSurf 7 rfl

/-! ## Claim C4 -/

/-- Claim C4, counterexample: a content entry populating both valueString
and valueArray makes the A2UIRenderer builder store the array, not the
string, contradicting the claimed string-over-array precedence. -/
theorem both_variants_store_array_in_a2ui_renderer :
    a2uiProcessMessages
      [.dataModelUpdate "s1" (some "/")
        [{ key := "k", valueString := some "s", valueArray := some [.num 1] }]] =
    .ok (⟨"main", [], [("/", .obj [("k", .arr [.num 1] [])])]⟩, false) :=
  rfl

/-- Claim C4, amended: when both valueString and valueArray are populated,
the A2UIRenderer builder stores the array (its array branch takes precedence
over the coalesced value), while the OfficialA2UIRenderer builder follows
the claimed precedence string over number over boolean over array and stores
the string. -/
theorem value_variant_precedence (k s : String) (a : List JsVal)
    (hk : k.isEmpty = false) :
    a2uiProcessMessages
      [.dataModelUpdate "sid" (some "/")
        [{ key := k, valueString := some s, valueArray := some a }]] =
      .ok (⟨"main", [], [("/", .obj [(k, .arr a [])])]⟩, false) ∧
    officialProcessMessages
      [.dataModelUpdate "sid" (some "/")
        [{ key := k, valueString := some s, valueArray := some a }]] =
      .ok ⟨[], [(k, .str s)], false⟩ := by
  constructor
  · simp [a2uiProcessMessages, exFoldl, a2uiApplyMessage, a2uiPathParts,
      dmuWalk, a2uiWriteContents, writeOneContent, hk, jsGet, jsSet, truthy, setProp]
  · simp [officialProcessMessages, exFoldl, officialApplyMessage, officialPathParts,
      dmuWalk, officialWriteContents, hk, jsGet, jsSet, truthy, setProp,
      contentValue, jsSplit, splitChars]

/-- Claim C4, witness for the amended theorem at concrete values. -/
theorem value_variant_precedence_witness :
    a2uiProcessMessages
      [.dataModelUpdate "sid" (some "/")
        [{ key := "k", valueString := some "s", valueArray := some [.num 9] }]] =
      .ok (⟨"main", [], [("/", .obj [("k", .arr [.num 9] [])])]⟩, false) ∧
    officialProcessMessages
      [.dataModelUpdate "sid" (some "/")
        [{ key := "k", valueString := some "s", valueArray := some [.num 9] }]] =
      .ok ⟨[], [("k", .str "s")], false⟩ :=
  value_variant_precedence "k" "s" [.num 9] rfl

/-! ## Claim C5 -/

/-- Claim C5, counterexample: the registry resolver returns null for the
empty path because of its falsy-path guard, while the root slash resolves to
the root container, so the empty path is not resolved like the root as the
claim states. -/
theorem empty_path_resolves_to_null_not_root :
    a2uiResolveDataPath kpisDm "" = .ok .null ∧
    a2uiResolveDataPath kpisDm "/" =
      .ok (.obj [("kpis", .obj [("revenue", .num 1000)])]) ∧
    JsVal.null ≠ JsVal.obj [("kpis", .obj [("revenue", .num 1000)])] :=
  ⟨rfl, rfl, fun h => JsVal.noConfusion h⟩

/-- Claim C5, amended: the resolver splits on the separator and drops empty
segments, so the root slash and trailing or doubled slashes normalize alike
and the worked examples hold (a missing final key yields the JavaScript
undefined, a non-container intermediate yields null); the empty path alone
short-circuits to null through the falsy-path guard instead of resolving to
the root container. -/
theorem resolver_normalization_and_examples :
    a2uiResolveDataPath kpisDm "/kpis/revenue" = .ok (.num 1000) ∧
    a2uiResolveDataPath kpisDm "/kpis/missing" = .ok .undefined ∧
    a2uiResolveDataPath kpisDm "/" =
      .ok (.obj [("kpis", .obj [("revenue", .num 1000)])]) ∧
    a2uiResolveDataPath kpisDm "/kpis/revenue/deep" = .ok .null ∧
    (∀ dm : List (String × JsVal), a2uiResolveDataPath dm "" = .ok .null) ∧
    (∀ dm : List (String × JsVal),
      a2uiResolveDataPath dm "/kpis/" = a2uiResolveDataPath dm "/kpis") ∧
    (∀ dm : List (String × JsVal),
      a2uiResolveDataPath dm "//kpis//revenue//" =
        a2uiResolveDataPath dm "/kpis/revenue") :=
  ⟨rfl, rfl, rfl, rfl, fun _ => rfl, fun _ => rfl, fun _ => rfl⟩

/-! ## Claim C8 -/

/-- Claim C8, counterexample: a surfaceUpdate, then deleteSurface for the
same surface id, then another surfaceUpdate: the component written before
the delete survives in the final registry, so the later envelopes continue
the pre-delete surface instead of a fresh empty one. -/
theorem envelopes_after_delete_continue_old_surface :
    a2uiProcessMessages
      [.surfaceUpdate "s1" [delA], .deleteSurface "s1", .surfaceUpdate "s1" [delB]] =
    .ok (⟨"s1", [("A", delA), ("B", delB)], []⟩, false) :=
  rfl

/-- Claim C8, amended: deleteSurface is a no-op in both builders (the
A2UIRenderer branch only logs and the official loop has no branch for it),
so every later envelope for the same id continues the pre-delete surface
state unchanged. -/
theorem delete_surface_is_noop :
    (∀ (st : A2UISurface) (r : Bool) (sid : String),
      a2uiApplyMessage (st, r) (.deleteSurface sid) = .ok (st, r)) ∧
    (∀ (st : OfficialState) (sid : String),
      officialApplyMessage st (.deleteSurface sid) = .ok st) :=
  ⟨fun _ _ _ => rfl, fun _ _ => rfl⟩

/-! ## Claim C9 -/

/-- Claim C9, counterexample: rendering the dangling id B yields the null
render, not a visible fallback, while the sibling C still renders: the
dispatcher silently renders nothing for a missing component. -/
theorem missing_component_renders_nothing :
    renderComp missSurf 10 "A" = .ok (.rowN [.nullNode, .textN missC.data]) ∧
    renderComp missSurf 10 "B" = .ok .nullNode :=
  ⟨rfl, rfl⟩

/-- Claim C9, amended: rendering an id absent from the component registry
returns the null render (a console warning only, nothing visible) and never
throws, so surrounding rendering continues. -/
theorem missing_component_renders_null (s : A2UISurface) (fuel : Nat) (cid : String)
    (h : jsGet s.components cid = none) :
    renderComp s (fuel + 1) cid = .ok .nullNode := by
  unfold renderComp
  rw [h]

/-- Claim C9, witness for the amended theorem at the dangling reference of
the concrete surface. -/
theorem missing_component_renders_null_witness :
    renderComp missSurf (9 + 1) "D" = .ok .nullNode :=
  missing_component_renders_null missSurf 9 "D" rfl

/-! ## Claim C10 -/

/-- Claim C10: at any step where the current node is a one-element array
whose sole element is a container object, the resolver descends into that
element with the current path segment instead of indexing the array, and
resolution continues from inside the element. -/
theorem singleton_array_descends_into_element (fields props_ : List (String × JsVal))
    (part : String) (rest : List String) :
    a2uiResolveParts (.arr [.obj fields] props_) (part :: rest) =
      a2uiResolveParts (.obj fields) (part :: rest) :=
  rfl

/-! ## Claim C1 -/

/-- Claim C1, counterexample: two surfaceUpdates both writing id X, the
first also introducing the distinct id A: the official builder replaces the
component list wholesale, so A does not remain in the final registry even
though an earlier surfaceUpdate introduced it. -/
theorem official_surface_update_drops_earlier_components :
    officialProcessMessages
      [.surfaceUpdate "s1" [dupX1, dupA], .surfaceUpdate "s1" [dupX2]] =
    .ok ⟨[dupX2], [], false⟩ :=
  rfl

/-- Claim C1, amended: in the A2UIRenderer fold the registry lookup of any
id after a successful fold equals the last component written for that id by
any surfaceUpdate of the sequence, falling back to the starting registry, so
a repeated id is totally replaced by the later write while earlier distinct
ids remain; the official builder instead replaces the whole component list
on every surfaceUpdate, so there earlier ids remain only if re-listed. -/
theorem registry_maps_id_to_last_surface_update_write :
    (∀ (msgs : List A2UIMessage) (s0 : A2UISurface) (r0 : Bool)
        (out : A2UISurface × Bool),
        exFoldl a2uiApplyMessage (s0, r0) msgs = .ok out →
        ∀ x, jsGet out.1.components x =
          lastWins (lastSuWrite msgs x) (jsGet s0.components x))
    ∧ (∀ (st : OfficialState) (sid : String) (comps : List A2UIComponent),
        officialApplyMessage st (.surfaceUpdate sid comps) =
          .ok { st with components := comps }) := by
  constructor
  · intro msgs
    induction msgs with
    | nil =>
        intro s0 r0 out h x
        unfold exFoldl at h
        cases h
        simp [lastSuWrite, lastWins]
    | cons m rest ih =>
        intro s0 r0 out h x
        obtain ⟨s', hfa, hrest⟩ := exFoldl_cons_ok _ _ _ _ _ h
        have h1 := a2uiApplyMessage_ok_components _ _ _ hfa x
        have h2 := ih s'.1 s'.2 out hrest x
        rw [h2, h1, ← lastWins_assoc]
        rfl
  · intro st sid comps
    rfl

/-- Claim C1, witness for the amended theorem: the fold of two
surfaceUpdates writing X twice and A once, evaluated concretely. -/
theorem registry_maps_id_to_last_surface_update_write_witness :
    (jsGet
      (⟨"s1", [("X", dupX2), ("A", dupA)], []⟩ : A2UISurface).components "X" =
      lastWins
        (lastSuWrite
          [.surfaceUpdate "s1" [dupX1, dupA], .surfaceUpdate "s1" [dupX2]] "X")
        (jsGet ([] : List (String × A2UIComponent)) "X")) ∧
    (jsGet
      (⟨"s1", [("X", dupX2), ("A", dupA)], []⟩ : A2UISurface).components "A" =
      lastWins
        (lastSuWrite
          [.surfaceUpdate "s1" [dupX1, dupA], .surfaceUpdate "s1" [dupX2]] "A")
        (jsGet ([] : List (String × A2UIComponent)) "A")) :=
  ⟨registry_maps_id_to_last_surface_update_write.1
      [.surfaceUpdate "s1" [dupX1, dupA], .surfaceUpdate "s1" [dupX2]]
      ⟨"main", [], []⟩ false (⟨"s1", [("X", dupX2), ("A", dupA)], []⟩, false) rfl "X",
   registry_maps_id_to_last_surface_update_write.1
      [.surfaceUpdate "s1" [dupX1, dupA], .surfaceUpdate "s1" [dupX2]]
      ⟨"main", [], []⟩ false (⟨"s1", [("X", dupX2), ("A", dupA)], []⟩, false) rfl "A"⟩

/-! ## Claim C2 -/

/-- Claim C2, counterexample: a stream whose first record is a well-formed
surfaceUpdate and whose second record is malformed: the whole effect fails
with the parse error and produces no surface at all, so the first record is
not left applied as the claim states. -/
theorem malformed_record_discards_earlier_records :
    a2uiRunEffect
      [.message (.surfaceUpdate "s1" [dupX1]), .malformed "not json"] =
    .error "not json" :=
  rfl

theorem exMap_cons_error {α β : Type} (f : α → Except String β) (a : α) (b : β)
    (l : List α) (hfa : f a = .ok b) (e : String) (hl : exMap f l = .error e) :
    exMap f (a :: l) = .error e := by
  unfold exMap
  rw [hfa, hl]

theorem exMap_parse_malformed (pre post : List RawLine) (raw : String)
    (hpre : ∀ l ∈ pre, l.isMalformed = false) :
    exMap parseLine ((pre ++ .malformed raw :: post).filter (fun l => !l.isBlank)) =
      .error raw := by
  induction pre with
  | nil => rfl
  | cons l pre ih =>
      have hrest : ∀ l' ∈ pre, l'.isMalformed = false :=
        fun l' hm => hpre l' (List.mem_cons_of_mem _ hm)
      cases l with
      | blank => exact ih hrest
      | malformed r =>
          exact absurd (hpre _ (List.mem_cons_self _ _)) (by simp [RawLine.isMalformed])
      | message m =>
          show exMap parseLine
              (.message m ::
                (pre ++ .malformed raw :: post).filter (fun l => !l.isBlank)) =
            .error raw
          exact exMap_cons_error parseLine (.message m) m _ rfl raw (ih hrest)

/-- Claim C2, amended: the decoder is eager, not incremental: every record
is parsed before any envelope is applied, so a stream whose first malformed
record sits at position k makes the whole decode-and-apply pass fail with
the parse error of that record while applying none of records 1 through k-1
(the rendered surface stays whatever an earlier complete pass produced). -/
theorem first_malformed_record_aborts_before_any_apply (pre post : List RawLine)
    (raw : String) (hpre : ∀ l ∈ pre, l.isMalformed = false) :
    a2uiRunEffect (pre ++ .malformed raw :: post) = .error raw := by
  unfold a2uiRunEffect
  rw [exMap_parse_malformed pre post raw hpre]

/-- Claim C2, witness for the amended theorem at a concrete two-record
stream. -/
theorem first_malformed_record_aborts_before_any_apply_witness :
    a2uiRunEffect [.message (.beginRendering "s1"), .malformed "oops"] =
      .error "oops" :=
  first_malformed_record_aborts_before_any_apply
    [.message (.beginRendering "s1")] [] "oops"
    (by intro l hl; simp only [List.mem_singleton] at hl; subst hl; rfl)

/-! ## Claim C6 -/

/-- Claim C6, counterexample: two well-formed dataModelUpdate envelopes: the
first writes the number 5 at x, the second targets the path through x, whose
traversal assigns a property to a primitive and throws a TypeError in strict
mode, so the builder is not total on well-formed envelopes. -/
theorem dmu_through_primitive_leaf_throws :
    a2uiProcessMessages
      [.dataModelUpdate "s1" (some "/") [{ key := "x", valueNumber := some 5 }],
       .dataModelUpdate "s1" (some "/x/y") [{ key := "k", valueNumber := some 1 }]] =
    .error "TypeError: cannot create property on a primitive value" :=
  rfl

theorem setProp_container (v : JsVal) (k : String) (x : JsVal)
    (hv : isContainer v = true) :
    ∃ v', setProp v k x = .ok v' ∧ isContainer v' = true := by
  cases v with
  | obj fields => exact ⟨_, rfl, rfl⟩
  | arr elems props =>
      cases h : arrIndex? k elems.length with
      | some i =>
          exact ⟨.arr (elems.set i x) props, by simp [setProp, h], rfl⟩
      | none =>
          exact ⟨.arr elems (jsSet props k x), by simp [setProp, h], rfl⟩
  | undefined => exact absurd hv (by simp [isContainer])
  | null => exact absurd hv (by simp [isContainer])
  | str s => exact absurd hv (by simp [isContainer])
  | num n => exact absurd hv (by simp [isContainer])
  | bool b => exact absurd hv (by simp [isContainer])

theorem writeContents_ok (items : List DataModelContent) (v : JsVal)
    (hv : isContainer v = true) :
    ∃ v', a2uiWriteContents items v = .ok v' ∧ isContainer v' = true := by
  induction items generalizing v with
  | nil => exact ⟨v, rfl, hv⟩
  | cons item rest ih =>
      unfold a2uiWriteContents
      rw [exFoldl.eq_2]
      cases hk : item.key.isEmpty with
      | true =>
          have hw : writeOneContent v item = .ok v := by
            unfold writeOneContent
            rw [hk]
            rfl
          rw [hw]
          exact ih v hv
      | false =>
          cases hva : item.valueArray with
          | some a =>
              obtain ⟨v', hsp, hv'⟩ := setProp_container v item.key (.arr a []) hv
              have hw : writeOneContent v item = .ok v' := by
                unfold writeOneContent
                rw [hk, hva]
                simpa using hsp
              rw [hw]
              exact ih v' hv'
          | none =>
              obtain ⟨v', hsp, hv'⟩ := setProp_container v item.key (contentValue item) hv
              have hw : writeOneContent v item = .ok v' := by
                unfold writeOneContent
                rw [hk, hva]
                simpa using hsp
              rw [hw]
              exact ih v' hv'

theorem dmuWalk_fresh (write : JsVal → Except String JsVal)
    (hw : ∀ u, isContainer u = true → ∃ u', write u = .ok u')
    (parts : List String) :
    ∃ v', dmuWalk write (.obj []) parts = .ok v' := by
  induction parts with
  | nil => exact hw _ rfl
  | cons part rest ih =>
      show ∃ v',
        (match dmuWalk write (.obj []) rest with
         | Except.error e => Except.error e
         | Except.ok child' =>
            setProp (.obj [(part, .obj [])]) part child') = Except.ok v'
      obtain ⟨c, hc⟩ := ih
      rw [hc]
      exact ⟨_, rfl⟩

theorem dmuWalk_safe_ok (write : JsVal → Except String JsVal)
    (hw : ∀ u, isContainer u = true → ∃ u', write u = .ok u')
    (v : JsVal) (parts : List String) (h : dmuSafe v parts = true) :
    ∃ v', dmuWalk write v parts = .ok v' := by
  induction parts generalizing v with
  | nil => exact hw v h
  | cons part rest ih =>
      unfold dmuWalk
      unfold dmuSafe at h
      cases ht : truthy (getProp v part) with
      | true =>
          simp only [ht, if_true] at h ⊢
          obtain ⟨c, hc⟩ := ih _ h
          rw [hc]
          exact ⟨_, rfl⟩
      | false =>
          simp only [ht, if_false] at h ⊢
          obtain ⟨v', hsp, hv'⟩ := setProp_container v part (.obj []) h
          rw [hsp]
          obtain ⟨c, hc⟩ := dmuWalk_fresh write hw rest
          rw [hc]
          obtain ⟨v'', hsp2, _⟩ := setProp_container v' part c hv'
          exact ⟨v'', hsp2⟩

/-- Claim C6, amended: the builder returns normally for every surfaceUpdate,
beginRendering and deleteSurface envelope and for every dataModelUpdate
whose target path traverses only containers or falsy leaves (absent segments
are created as fresh containers); a traversal through a truthy primitive
leaf instead throws a strict-mode TypeError, as the counterexample shows. -/
theorem builder_total_on_safe_traversals (s : A2UISurface) (r : Bool)
    (msg : A2UIMessage) (h : msgTraversalOk s msg = true) :
    ∃ out, a2uiApplyMessage (s, r) msg = .ok out := by
  cases msg with
  | surfaceUpdate sid comps => exact ⟨_, rfl⟩
  | beginRendering sid => exact ⟨_, rfl⟩
  | deleteSurface sid => exact ⟨_, rfl⟩
  | dataModelUpdate sid path contents =>
      simp only [msgTraversalOk] at h
      simp only [a2uiApplyMessage]
      obtain ⟨root', hwalk⟩ := dmuWalk_safe_ok (a2uiWriteContents contents)
        (fun u hu => (writeContents_ok contents u hu).imp (fun _ hh => hh.1)) _ _ h
      rw [hwalk]
      exact ⟨_, rfl⟩

/-- Claim C6, witness for the amended theorem: a dataModelUpdate through an
absent path applied to the empty surface returns normally. -/
theorem builder_total_on_safe_traversals_witness :
    ∃ out, a2uiApplyMessage (⟨"main", [], []⟩, false)
      (.dataModelUpdate "s1" (some "/kpis")
        [{ key := "revenue", valueNumber := some 1000 }]) = .ok out :=
  builder_total_on_safe_traversals ⟨"main", [], []⟩ false
    (.dataModelUpdate "s1" (some "/kpis")
      [{ key := "revenue", valueNumber := some 1000 }]) rfl

/-! ## Claim C7 -/

/-- Claim C7, counterexample: for the registry A listing child B, with B and
C childless, the official pipeline derives the root set A and C but hands
the viewer only the single root A, so C, though in the derived root set, is
not rendered. -/
theorem official_renders_only_first_root :
    (match officialProcessMessages
        [.surfaceUpdate "s1" [topoA, topoB, topoC], .beginRendering "s1"] with
     | .error e => .error e
     | .ok st =>
        match officialResolveAll st.dataModel 10 st.components with
        | .error e => .error e
        | .ok rcs => .ok (officialRoots rcs, officialRootId rcs)) =
    Except.ok (["A", "C"], some "A") :=
  rfl

/-- Claim C7, amended: the A2UIRenderer root set contains exactly the
registry ids that appear in no children list, in registry order, and its
dispatcher renders every root (both shown on the worked example A listing B
with childless B and C, whose surface renders both roots A and C); the
official renderer derives the same set but hands its viewer only the first
root, as the counterexample shows. -/
theorem roots_are_unreferenced_ids_and_all_rendered :
    (∀ (s : A2UISurface) (id : String),
      id ∈ a2uiRootComponents s ↔
        id ∈ s.components.map Prod.fst ∧
          id ∉ childIdsOf (s.components.map Prod.snd)) ∧
    a2uiRootComponents topoSurf = ["A", "C"] ∧
    a2uiRenderSurface topoSurf 10 =
      .ok (.surfaceN [.rowN [.textN topoB.data], .textN topoC.data]) := by
  refine ⟨?_, rfl, rfl⟩
  intro s id
  simp [a2uiRootComponents, List.mem_filter]

end A2UI
